/-
Verification of the memic-backend ingestion pipeline against its
natural-language specification.

The definitions below are a shallow embedding of the Python source:
  * `FileStatus`, `FileRecord`           — app/models/file.py
  * `update_status`                      — app/repositories/file_repository.py
  * conversion / parsing / chunking / embedding status traces
                                         — app/tasks/\x7bconversion,parsing,chunking,embedding\x7d_tasks.py
  * `chunk_file_task`                    — app/tasks/chunking_tasks.py
  * `needs_conversion`                   — app/tasks/file_converter.py
  * `analyze_document`                   — app/tasks/parsing/utils/afr_client.py
  * `enrich_with_llm`, envelope assembly — app/tasks/parsing/base_parser.py
  * `extract_sections_from_result`       — app/tasks/parsing/utils/afr_client.py
  * `storage_address`, enriched/converted blob paths
                                         — app/tasks/parsing/utils/storage_helper.py,
                                           app/tasks/conversion_tasks.py
-/
import Mathlib

namespace Memic

/-! ## File status model (app/models/file.py, `FileStatus`) -/

/-- The persisted lifecycle status of a file, one constructor per member of
the Python `FileStatus` enum. -/
inductive FileStatus where
  | uploading
  | uploaded
  | upload_failed
  | conversion_started
  | conversion_complete
  | conversion_failed
  | parsing_started
  | parsing_complete
  | parsing_failed
  | chunking_started
  | chunking_complete
  | chunking_failed
  | embedding_started
  | embedding_complete
  | embedding_failed
  | ready
  deriving DecidableEq, Repr, Fintype

/-- The columns of the `files` table that the claims under study read or
write (app/models/file.py, class `File`).  Timestamps are modelled as
abstract `Option Nat` instants. -/
structure FileRecord where
  status : FileStatus
  error_message : Option String
  is_converted : Bool
  converted_file_path : Option String
  blob_storage_path : String
  original_filename : String
  total_chunks : Nat
  chunking_started_at : Option Nat
  chunking_completed_at : Option Nat
  deriving DecidableEq, Repr

/-- Python truthiness of an `Optional[str]`: `None` and the empty string are
falsy. -/
def pyTruthyStr : Option String → Bool
  | none => false
  | some s => s ≠ ""

/-- `FileRepository.update_status` (app/repositories/file_repository.py,
lines 71–95): look the file up; if absent return `None`; otherwise set
`status` unconditionally, set `error_message` only when a truthy message was
supplied, commit, and return the updated record.  No transition validation
is performed. -/
def update_status (file : Option FileRecord) (status : FileStatus)
    (errorMessage : Option String) : Option FileRecord :=
  match file with
  | none => none
  | some f =>
      some { f with
              status := status
              error_message :=
                if pyTruthyStr errorMessage then errorMessage else f.error_message }

/-! ## The legal-transition relation of spec §4.1.

Modelled from the spec (§4.1): a stage may only begin from the completion
state of its predecessor (or from `uploaded` for conversion); a started
stage may move to its own complete or failed state; `embedding_complete`
may move to `ready`.  This spec-side relation exists only to *state* claim
C2 about `update_status`; the source contains no validation code. -/
def legalTransition : FileStatus → FileStatus → Bool
  | .uploading, .uploaded => true
  | .uploading, .upload_failed => true
  | .uploaded, .conversion_started => true
  | .conversion_started, .conversion_complete => true
  | .conversion_started, .conversion_failed => true
  | .conversion_complete, .parsing_started => true
  | .parsing_started, .parsing_complete => true
  | .parsing_started, .parsing_failed => true
  | .parsing_complete, .chunking_started => true
  | .chunking_started, .chunking_complete => true
  | .chunking_started, .chunking_failed => true
  | .chunking_complete, .embedding_started => true
  | .embedding_started, .embedding_complete => true
  | .embedding_started, .embedding_failed => true
  | .embedding_complete, .ready => true
  | _, _ => false

/-! ## Status traces of the four stage tasks.

Each Celery task persists a sequence of statuses through
`FileRepository.update_status`.  The possible sequences are read off the
control flow of the task bodies; each constructor below names one branch of
the corresponding task. -/

/-- Branches of `convert_file_task` (app/tasks/conversion_tasks.py):
  * `skip`        — `needs_conversion` is false: the task records
                    `conversion_complete` immediately (lines 84–110) and no
                    `conversion_started` status is ever persisted;
  * `converted`   — conversion is needed and succeeds: `conversion_started`
                    then `conversion_complete`;
  * `failedAfterStart` — conversion is needed but download/convert/upload
                    raises: `conversion_started` then `conversion_failed`;
  * `failedBeforeStart` — the task raises before any status write (e.g. the
                    file row is missing): only `conversion_failed`. -/
inductive ConversionOutcome where
  | skip
  | converted
  | failedAfterStart
  | failedBeforeStart
  deriving DecidableEq, Repr, Fintype

def conversionTrace : ConversionOutcome → List FileStatus
  | .skip => [.conversion_complete]
  | .converted => [.conversion_started, .conversion_complete]
  | .failedAfterStart => [.conversion_started, .conversion_failed]
  | .failedBeforeStart => [.conversion_failed]

/-- Branches of `parse_file_task` (app/tasks/parsing_tasks.py): success and
failure after `parsing_started` was recorded, and failure before it
(configuration missing / file row missing, lines 111–130). -/
inductive ParsingOutcome where
  | ok
  | failedAfterStart
  | failedBeforeStart
  deriving DecidableEq, Repr, Fintype

def parsingTrace : ParsingOutcome → List FileStatus
  | .ok => [.parsing_started, .parsing_complete]
  | .failedAfterStart => [.parsing_started, .parsing_failed]
  | .failedBeforeStart => [.parsing_failed]

/-- Branches of `chunk_file_task` (app/tasks/chunking_tasks.py). -/
inductive ChunkingOutcome where
  | ok
  | failedAfterStart
  | failedBeforeStart
  deriving DecidableEq, Repr, Fintype

def chunkingTrace : ChunkingOutcome → List FileStatus
  | .ok => [.chunking_started, .chunking_complete]
  | .failedAfterStart => [.chunking_started, .chunking_failed]
  | .failedBeforeStart => [.chunking_failed]

/-- Branches of `embed_chunks_task` (app/tasks/embedding_tasks.py): the
success path records `embedding_started`, `embedding_complete`, `ready`. -/
inductive EmbeddingOutcome where
  | ok
  | failedAfterStart
  | failedBeforeStart
  deriving DecidableEq, Repr, Fintype

def embeddingTrace : EmbeddingOutcome → List FileStatus
  | .ok => [.embedding_started, .embedding_complete, .ready]
  | .failedAfterStart => [.embedding_started, .embedding_failed]
  | .failedBeforeStart => [.embedding_failed]

/-- One pipeline run for a document: the conversion branch taken, followed by
the branch of each later stage when that stage was dispatched at all
(`none` = the chain stopped before the stage). -/
structure PipelineRun where
  conv : ConversionOutcome
  parsing : Option ParsingOutcome
  chunking : Option ChunkingOutcome
  embedding : Option EmbeddingOutcome
  deriving DecidableEq, Repr, Fintype

/-- The statuses persisted for the document over a whole run, in order. -/
def pipelineTrace (r : PipelineRun) : List FileStatus :=
  conversionTrace r.conv
    ++ (match r.parsing with | none => [] | some o => parsingTrace o)
    ++ (match r.chunking with | none => [] | some o => chunkingTrace o)
    ++ (match r.embedding with | none => [] | some o => embeddingTrace o)

/-- For a `*_complete` status, the `*_started` status of the same stage. -/
def startedOf : FileStatus → Option FileStatus
  | .conversion_complete => some .conversion_started
  | .parsing_complete => some .parsing_started
  | .chunking_complete => some .chunking_started
  | .embedding_complete => some .embedding_started
  | _ => none

/-- Checks, scanning left to right with the set `seen` of statuses already
recorded, that every `*_complete` status in the trace is preceded by the
same stage's `*_started` status. -/
def startBeforeCompleteFrom (seen : List FileStatus) : List FileStatus → Bool
  | [] => true
  | s :: rest =>
      (match startedOf s with
       | some st => seen.contains st
       | none => true)
      && startBeforeCompleteFrom (s :: seen) rest

/-- Same check, but exempting `conversion_complete` (the conversion skip
path records completion without a started status). -/
def startBeforeCompleteNonConvFrom (seen : List FileStatus) : List FileStatus → Bool
  | [] => true
  | s :: rest =>
      (match startedOf s with
       | some st => s = .conversion_complete || seen.contains st
       | none => true)
      && startBeforeCompleteNonConvFrom (s :: seen) rest

/-! ## Section normalizer
(app/tasks/parsing/utils/afr_client.py, `extract_sections_from_result` and
its helpers).  Floating-point dimensions and coordinates pass through the
code untouched, so they are modelled as integers. -/

/-- One span of an AFR paragraph/table: only its `offset` is read. -/
structure RawSpan where
  offset : Nat
  deriving DecidableEq, Repr

/-- One point of a bounding polygon. -/
structure RawPoint where
  x : Int
  y : Int
  deriving DecidableEq, Repr

/-- One bounding region of an AFR element. -/
structure RawRegion where
  page_number : Nat
  polygon : List RawPoint
  deriving DecidableEq, Repr

/-- An AFR paragraph as consumed by `_create_section_from_paragraph`. -/
structure RawParagraph where
  content : String
  role : Option String
  spans : List RawSpan
  bounding_regions : List RawRegion
  deriving DecidableEq, Repr

/-- One AFR table cell as consumed by `_table_to_html`. -/
structure RawCell where
  row_index : Nat
  kind : String
  content : String
  column_span : Option Nat
  row_span : Option Nat
  deriving DecidableEq, Repr

/-- An AFR table as consumed by `_create_section_from_table`. -/
structure RawTable where
  row_count : Nat
  column_count : Nat
  cells : List RawCell
  spans : List RawSpan
  bounding_regions : List RawRegion
  deriving DecidableEq, Repr

/-- An AFR page as consumed by the page-dimension extraction loop. -/
structure RawPage where
  page_number : Nat
  width : Int
  height : Int
  unit : String
  angle : Int
  deriving DecidableEq, Repr

/-- An AFR analysis result (`result.pages`, `result.paragraphs`,
`result.tables`). -/
structure RawResult where
  pages : List RawPage
  paragraphs : List RawParagraph
  tables : List RawTable
  deriving DecidableEq, Repr

/-- A normalized section dict.  Paragraph sections leave `row_count` and
`column_count` as `none`; table sections leave `role` as `none`. -/
structure Section where
  content : String
  kind : String
  viewport : List Int
  offset : Nat
  page_number : Nat
  role : Option String
  row_count : Option Nat
  column_count : Option Nat
  deriving DecidableEq, Repr

/-- Per-page metadata (`page_info[str(page.page_number)]`). -/
structure PageInfo where
  width : Int
  height : Int
  unit : String
  angle : Int
  deriving DecidableEq, Repr

/-- The flat `[x1, y1, x2, y2, ...]` viewport of the first bounding region,
empty when there is none. -/
def viewportOf (regions : List RawRegion) : List Int :=
  match regions with
  | [] => []
  | r :: _ => r.polygon.flatMap fun p => [p.x, p.y]

/-- Page number of the first bounding region, defaulting to 1. -/
def pageNumberOf (regions : List RawRegion) : Nat :=
  match regions with
  | [] => 1
  | r :: _ => r.page_number

/-- Offset of the first span, defaulting to 0. -/
def offsetOf (spans : List RawSpan) : Nat :=
  match spans with
  | [] => 0
  | sp :: _ => sp.offset

/-- `_create_section_from_paragraph`. -/
def create_section_from_paragraph (p : RawParagraph) : Section :=
  { content := p.content
    kind := "paragraph"
    viewport := viewportOf p.bounding_regions
    offset := offsetOf p.spans
    page_number := pageNumberOf p.bounding_regions
    role := p.role
    row_count := none
    column_count := none }

/-- The HTML of one table cell: `th` for column headers, with a
`colspan`/`rowspan` attribute when the span exceeds 1 (the rowspan variant
overwrites the colspan variant, as in the source). -/
def cellHtml (c : RawCell) : String :=
  let tag := if c.kind = "columnHeader" then "th" else "td"
  let base := "<" ++ tag ++ ">" ++ c.content ++ "</" ++ tag ++ ">"
  let base :=
    match c.column_span with
    | some n =>
        if n > 1 then
          "<" ++ tag ++ " colspan='" ++ toString n ++ "'>" ++ c.content ++ "</" ++ tag ++ ">"
        else base
    | none => base
  match c.row_span with
  | some n =>
      if n > 1 then
        "<" ++ tag ++ " rowspan='" ++ toString n ++ "'>" ++ c.content ++ "</" ++ tag ++ ">"
      else base
  | none => base

/-- Append `x` to the `i`-th bucket; out-of-range indices leave the buckets
unchanged. -/
def appendAt (rows : List (List String)) (i : Nat) (x : String) : List (List String) :=
  rows.set i (rows.getD i [] ++ [x])

/-- `_table_to_html`: distribute cell HTML over `row_count` buckets by
`row_index`, then render the non-empty rows. -/
def table_to_html (t : RawTable) : String :=
  let rows := t.cells.foldl (fun acc c => appendAt acc c.row_index (cellHtml c))
      (List.replicate t.row_count [])
  let rowsHtml := String.intercalate "\n"
      ((rows.filter (· ≠ [])).map fun cells => "  <tr>" ++ String.join cells ++ "</tr>")
  "<table>\n" ++ rowsHtml ++ "\n</table>"

/-- `_create_section_from_table`. -/
def create_section_from_table (t : RawTable) : Section :=
  { content := table_to_html t
    kind := "table"
    viewport := viewportOf t.bounding_regions
    offset := offsetOf t.spans
    page_number := pageNumberOf t.bounding_regions
    role := none
    row_count := some t.row_count
    column_count := some t.column_count }

/-- The sort key order of `sections.sort(key=lambda x: (x.get("page_number", 0),
x.get("offset", 0)))`: lexicographic non-strict order on
`(page_number, offset)`. -/
def sectionKeyLe (a b : Section) : Prop :=
  a.page_number < b.page_number
    ∨ (a.page_number = b.page_number ∧ a.offset ≤ b.offset)

instance : DecidableRel sectionKeyLe := fun a b => by
  unfold sectionKeyLe; exact inferInstance

instance : IsTotal Section sectionKeyLe :=
  ⟨fun a b => by unfold sectionKeyLe; omega⟩

instance : IsTrans Section sectionKeyLe :=
  ⟨fun a b c => by unfold sectionKeyLe; omega⟩

/-- `extract_sections_from_result`: page dimensions per page, paragraph
sections, table sections when enabled, sorted by `(page_number, offset)`.
The Python `list.sort` is a stable sort by that key, modelled by the stable
`List.insertionSort` under `sectionKeyLe`. -/
def extract_sections_from_result (result : RawResult) (includeTables : Bool) :
    List Section × List (String × PageInfo) :=
  let pageInfo := result.pages.map fun p =>
    (toString p.page_number, PageInfo.mk p.width p.height p.unit p.angle)
  let sections := result.paragraphs.map create_section_from_paragraph
      ++ (if includeTables then result.tables.map create_section_from_table else [])
  (List.insertionSort sectionKeyLe sections, pageInfo)

/-! ## Chunking stage (app/tasks/chunking_tasks.py, `chunk_file_task`) -/

/-- One row of the `file_chunks` table as created by the chunking task;
`chunk_page` and `chunk_kind` model the `chunk_metadata` JSON
`\x7b"page": i + 1, "type": "text"\x7d`. -/
structure ChunkRecord where
  file_id : String
  chunk_index : Nat
  token_count : Nat
  blob_storage_path : String
  chunk_page : Nat
  chunk_kind : String
  deriving DecidableEq, Repr

/-- Split a character list on `'/'` (Python `s.split('/')`). -/
def splitOnSlash : List Char → List (List Char)
  | [] => [[]]
  | c :: rest =>
      match splitOnSlash rest with
      | [] => [[]]
      | cur :: parts => if c = '/' then [] :: cur :: parts else (c :: cur) :: parts

/-- Python `s.split('/')` as a list of strings. -/
def pySplitSlash (s : String) : List String :=
  (splitOnSlash s.data).map fun l => ⟨l⟩

/-- Join path components with `'/'` separators. -/
def joinWithSlash : List String → String
  | [] => ""
  | [x] => x
  | x :: y :: xs => x ++ "/" ++ joinWithSlash (y :: xs)

/-- Python `s.rsplit('/', 2)[0]`: drop the last two `/`-separated
components; with at most one separator, the first piece of the right split. -/
def pyRsplit2Head (s : String) : String :=
  let parts := pySplitSlash s
  if parts.length ≤ 2 then parts.headD ""
  else joinWithSlash (parts.take (parts.length - 2))

/-- The blob path of dummy chunk `i`:
`\x7bbase_path\x7d/chunks/chunk_\x7bi\x7d.json`. -/
def dummyChunkPath (basePath : String) (i : Nat) : String :=
  basePath ++ "/chunks/chunk_" ++ toString i ++ ".json"

/-- The three dummy chunks the stub builds from the file's raw blob path
(lines 60–73 of chunking_tasks.py). -/
def mkDummyChunks (fileId : String) (blobStoragePath : String) : List ChunkRecord :=
  (List.range 3).map fun i =>
    { file_id := fileId
      chunk_index := i
      token_count := 50
      blob_storage_path := dummyChunkPath (pyRsplit2Head blobStoragePath) i
      chunk_page := i + 1
      chunk_kind := "text" }

/-- `update_status` specialised to a present row (the task paths below only
run after the row was found). -/
def update_status_record (f : FileRecord) (status : FileStatus)
    (errorMessage : Option String) : FileRecord :=
  { f with
      status := status
      error_message :=
        if pyTruthyStr errorMessage then errorMessage else f.error_message }

/-- The database state the chunking task touches: the file row, its chunk
rows, and the normalized sections stored in the enriched JSON artifact
(which the stub never reads). -/
structure ChunkDbState where
  file : FileRecord
  chunks : List ChunkRecord
  enrichedSections : List Section
  deriving DecidableEq, Repr

/-- The success path of `chunk_file_task`: record `chunking_started` and its
timestamp, `db.add` the three dummy chunks, record `chunking_complete`, set
`total_chunks` to the number of chunks just built, and stamp completion. -/
def chunk_file_task (fileId : String) (startTime finishTime : Nat)
    (s : ChunkDbState) : ChunkDbState :=
  let f1 := { update_status_record s.file .chunking_started none with
                chunking_started_at := some startTime }
  let newChunks := mkDummyChunks fileId s.file.blob_storage_path
  let f2 := { update_status_record f1 .chunking_complete none with
                total_chunks := newChunks.length
                chunking_completed_at := some finishTime }
  { s with file := f2, chunks := s.chunks ++ newChunks }

/-! ## Conversion predicate (app/tasks/file_converter.py, `needs_conversion`) -/

/-- Python `s.lower()`, character by character (the extensions compared
against are all ASCII). -/
def pyLower (s : String) : String :=
  ⟨s.data.map Char.toLower⟩

/-- Python `s.endswith(e)`: `e` is a suffix of `s` as a character sequence. -/
def strEndsWith (s e : String) : Bool :=
  decide (e.data <:+ s.data)

/-- Python `s.endswith((e1, e2, ...))`: some listed suffix matches. -/
def endsWithAny (s : String) (exts : List String) : Bool :=
  exts.any fun e => strEndsWith s e

/-- `needs_conversion(filename)`: a case-insensitive dispatch on the
filename suffix, mirroring the chain of `endswith` checks in the source. -/
def needs_conversion (filename : String) : Bool :=
  let fl := pyLower filename
  if endsWithAny fl [".pdf", ".json"] then false
  else if endsWithAny fl [".xlsx", ".pptx"] then false
  else if endsWithAny fl [".mp3", ".wav", ".m4a", ".flac", ".ogg", ".aac"] then false
  else if endsWithAny fl [".eml", ".msg"] then false
  else if endsWithAny fl [".doc", ".docx", ".xls", ".ppt"] then true
  else if endsWithAny fl [".jpg", ".jpeg", ".png"] then true
  else true

/-- The extensions for which `needs_conversion` is documented to skip:
target layout formats, modern spreadsheet/slide formats, audio, and email
containers. -/
def canonicalExtensions : List String :=
  [".pdf", ".json", ".xlsx", ".pptx",
   ".mp3", ".wav", ".m4a", ".flac", ".ogg", ".aac",
   ".eml", ".msg"]

/-- The extensions for which `needs_conversion` is documented to convert:
legacy office formats and raster images. -/
def convertExtensions : List String :=
  [".doc", ".docx", ".xls", ".ppt", ".jpg", ".jpeg", ".png"]

/-! ## Document analyzer retries
(app/tasks/parsing/utils/afr_client.py, `analyze_document`) -/

/-- What the external analysis call does on one attempt. -/
inductive AfrAttempt where
  | success (result : Nat)
  | timeout
  | httpError (status : Nat) (msg : String)
  | otherError (msg : String)
  deriving DecidableEq, Repr

instance {ε α : Type} [DecidableEq ε] [DecidableEq α] : DecidableEq (Except ε α)
  | .ok a, .ok b => decidable_of_iff (a = b) (by simp)
  | .error a, .error b => decidable_of_iff (a = b) (by simp)
  | .ok _, .error _ => isFalse fun h => Except.noConfusion h
  | .error _, .ok _ => isFalse fun h => Except.noConfusion h

/-- The outcome of `analyze_document`: either a result or the message of
the raised `RuntimeError`, together with the sleeps performed between
attempts, in order. -/
structure AnalyzeOutcome where
  result : Except String Nat
  delays : List Nat
  deriving DecidableEq, Repr

/-- The retry loop of `analyze_document`, structurally recursive on
`remaining`, the number of attempts still allowed including the current one
(`remaining = retryAttempts - attempt`, so the loop guard
`attempt < retryAttempts` becomes `remaining ≥ 1` and the non-final-attempt
test `attempt < retryAttempts - 1` becomes `remaining ≥ 2`):
  * success returns the result;
  * a timeout on a non-final attempt sleeps `retryDelay * (attempt + 1)`
    and retries; on the final attempt it raises;
  * an HTTP 429 on a non-final attempt sleeps `retryDelay * 2 ^ attempt`
    and retries; any other HTTP error, or a 429 on the final attempt,
    raises immediately;
  * any other exception on a non-final attempt sleeps `retryDelay` and
    retries; on the final attempt it raises. -/
def analyzeFrom (retryDelay : Nat) (env : Nat → AfrAttempt) :
    Nat → Nat → AnalyzeOutcome
  | 0, _ => ⟨.error "AFR analysis failed after all retry attempts", []⟩
  | remaining + 1, attempt =>
      match env attempt with
      | .success r => ⟨.ok r, []⟩
      | .timeout =>
          if remaining > 0 then
            let rest := analyzeFrom retryDelay env remaining (attempt + 1)
            ⟨rest.result, retryDelay * (attempt + 1) :: rest.delays⟩
          else ⟨.error "AFR analysis timed out after all retries", []⟩
      | .httpError status msg =>
          if status = 429 ∧ remaining > 0 then
            let rest := analyzeFrom retryDelay env remaining (attempt + 1)
            ⟨rest.result, retryDelay * 2 ^ attempt :: rest.delays⟩
          else ⟨.error ("AFR HTTP error: " ++ msg), []⟩
      | .otherError msg =>
          if remaining > 0 then
            let rest := analyzeFrom retryDelay env remaining (attempt + 1)
            ⟨rest.result, retryDelay :: rest.delays⟩
          else ⟨.error ("AFR analysis failed: " ++ msg), []⟩

/-- `AzureFormRecognizerClient.analyze_document`: run the retry loop with
`retryAttempts` attempts available, starting at attempt 0. -/
def analyze_document (retryAttempts retryDelay : Nat)
    (env : Nat → AfrAttempt) : AnalyzeOutcome :=
  analyzeFrom retryDelay env retryAttempts 0

/-! ## LLM enrichment (app/tasks/parsing/base_parser.py) -/

/-- A JSON-object-like metadata dict. -/
abbrev Metadata := List (String × String)

/-- `BaseParser._enrich_with_llm`: skipped when the feature flag is off;
otherwise the client construction + call either yields metadata or raises,
and every exception is swallowed into an empty dict. -/
def enrich_with_llm (enableLlmEnrichment : Bool)
    (llmCall : Except String Metadata) : Metadata :=
  if enableLlmEnrichment = false then []
  else
    match llmCall with
    | .ok m => m
    | .error _ => []

/-- The canonical enriched envelope. -/
structure Envelope where
  sections : List Section
  page_info : List (String × PageInfo)
  enriched_metadata : Metadata
  metadata : List (String × String)
  deriving DecidableEq, Repr

/-- Python `x or {}`: `None` and the empty dict are both replaced by the
empty dict. -/
def pyOrEmpty {β : Type} (x : Option (List β)) : List β :=
  match x with
  | none => []
  | some l => l

/-- `BaseParser._create_enriched_json_structure`: assemble the envelope,
defaulting absent page info and absent/empty enriched metadata to empty
objects. -/
def create_enriched_json_structure (sections : List Section)
    (pageInfo : Option (List (String × PageInfo)))
    (enrichedMetadata : Option Metadata)
    (baseMetadata : List (String × String)) : Envelope :=
  { sections := sections
    page_info := pyOrEmpty pageInfo
    enriched_metadata := pyOrEmpty enrichedMetadata
    metadata := baseMetadata }

/-! ## Storage addressing
(app/tasks/parsing/utils/storage_helper.py and app/tasks/conversion_tasks.py) -/

/-- The address convention
`\x7borg\x7d/\x7bproject\x7d/\x7bfile\x7d/\x7bstage\x7d/\x7bartifact\x7d`
shared by the concrete path builders below. -/
def storage_address (orgId projectId fileId stage artifact : String) : String :=
  orgId ++ "/" ++ projectId ++ "/" ++ fileId ++ "/" ++ stage ++ "/" ++ artifact

/-- `ParsingStorageHelper.generate_enriched_json_path`:
`f"\x7borg_id\x7d/\x7bproject_id\x7d/\x7bfile_id\x7d/enriched/enriched.json"`. -/
def generate_enriched_json_path (orgId projectId fileId : String) : String :=
  orgId ++ "/" ++ projectId ++ "/" ++ fileId ++ "/enriched/enriched.json"

/-- The converted-artifact path built in `convert_file_task`:
`f"\x7borg_id\x7d/\x7bproject_id\x7d/\x7bfile_id\x7d/converted/\x7bpdf_filename\x7d"`. -/
def converted_blob_path (orgId projectId fileId pdfFilename : String) : String :=
  orgId ++ "/" ++ projectId ++ "/" ++ fileId ++ "/converted/" ++ pdfFilename

/-- A string containing no `/` separator (e.g. a UUID rendered in the
usual hex-and-dashes form). -/
def slashFree (s : String) : Bool :=
  decide ('/' ∉ s.data)

/-! ## Concrete sample data used by counterexamples and witnesses -/

/-- A file row in the `uploaded` state with the conventional raw blob path. -/
def sampleFile : FileRecord :=
  { status := .uploaded
    error_message := none
    is_converted := false
    converted_file_path := none
    blob_storage_path := "org1/proj1/file1/raw/doc.pdf"
    original_filename := "doc.pdf"
    total_chunks := 0
    chunking_started_at := none
    chunking_completed_at := none }

/-- A chunking-stage database state for a parsed document that has an empty
chunk set and zero normalized sections. -/
def chunkSampleState : ChunkDbState :=
  { file := { sampleFile with status := .parsing_complete }
    chunks := []
    enrichedSections := [] }

/-- An analysis environment whose attempt 0 fails with a non-429 HTTP
response error while attempt 1 would succeed. -/
def afrHttp500Env : Nat → AfrAttempt :=
  fun i => if i = 0 then .httpError 500 "boom" else .success 7

/-- An analysis environment that times out on the first two attempts and
succeeds on the third. -/
def afrTimeoutTwiceEnv : Nat → AfrAttempt :=
  fun i => if i < 2 then .timeout else .success 7

/-- An analysis environment in which every attempt fails. -/
def afrAlwaysFailEnv : Nat → AfrAttempt :=
  fun _ => .otherError "x"

end Memic

namespace Memic

set_option maxRecDepth 8192

/-! ## Helper lemmas -/

/-- Matching a suffix against a concatenated extension list splits into the
two sub-lists. -/
theorem endsWithAny_append (s : String) (l1 l2 : List String) :
    endsWithAny s (l1 ++ l2) = (endsWithAny s l1 || endsWithAny s l2) := by
  simp [endsWithAny, List.any_append]

/-- `needs_conversion` returns `false` exactly on the canonical
extensions: the chain of `endswith` checks collapses to one suffix test. -/
theorem needs_conversion_eq_not_canonical (fn : String) :
    needs_conversion fn = !(endsWithAny (pyLower fn) canonicalExtensions) := by
  have hsplit : canonicalExtensions
      = [".pdf", ".json"] ++ ([".xlsx", ".pptx"]
        ++ ([".mp3", ".wav", ".m4a", ".flac", ".ogg", ".aac"] ++ [".eml", ".msg"])) := rfl
  rw [hsplit, endsWithAny_append, endsWithAny_append, endsWithAny_append]
  unfold needs_conversion
  cases h1 : endsWithAny (pyLower fn) [".pdf", ".json"] <;>
  cases h2 : endsWithAny (pyLower fn) [".xlsx", ".pptx"] <;>
  cases h3 : endsWithAny (pyLower fn) [".mp3", ".wav", ".m4a", ".flac", ".ogg", ".aac"] <;>
  cases h4 : endsWithAny (pyLower fn) [".eml", ".msg"] <;>
  simp [h1, h2, h3, h4]

/-- Two suffixes of one list are comparable: one is a suffix of the other. -/
theorem suffix_comparable {α : Type} {a c s : List α} (ha : a <:+ s) (hc : c <:+ s) :
    a <:+ c ∨ c <:+ a := by
  obtain ⟨u, hu⟩ := ha
  obtain ⟨v, hv⟩ := hc
  have h : u ++ a = v ++ c := hu.trans hv.symm
  rcases List.append_eq_append_iff.mp h with ⟨w, hw1, hw2⟩ | ⟨w, hw1, hw2⟩
  · exact Or.inr ⟨w, hw2.symm⟩
  · exact Or.inl ⟨w, hw2.symm⟩

/-- No conversion-triggering extension is a suffix of a canonical one or
vice versa. -/
theorem convert_canonical_no_overlap :
    ∀ e ∈ convertExtensions, ∀ c ∈ canonicalExtensions,
      ¬(e.data <:+ c.data) ∧ ¬(c.data <:+ e.data) := by decide

/-- A filename ending in a conversion-triggering extension does not also
end in a canonical one. -/
theorem convert_not_canonical (s : String)
    (h : endsWithAny s convertExtensions = true) :
    endsWithAny s canonicalExtensions = false := by
  by_contra hne
  rw [Bool.not_eq_false] at hne
  simp only [endsWithAny, List.any_eq_true] at h hne
  obtain ⟨e, he, hse⟩ := h
  obtain ⟨c, hcm, hsc⟩ := hne
  rw [strEndsWith, decide_eq_true_iff] at hse hsc
  rcases suffix_comparable hse hsc with h1 | h1
  · exact (convert_canonical_no_overlap e he c hcm).1 h1
  · exact (convert_canonical_no_overlap e he c hcm).2 h1

/-- Cancellation of `a ++ '/' :: b` when neither prefix contains the
separator. -/
theorem append_cons_inj {a b c d : List Char} (ha : '/' ∉ a) (hc : '/' ∉ c)
    (h : a ++ '/' :: b = c ++ '/' :: d) : a = c ∧ b = d := by
  induction a generalizing c with
  | nil =>
    cases c with
    | nil => simpa using h
    | cons y ys =>
      simp only [List.nil_append, List.cons_append, List.cons.injEq] at h
      simp [← h.1] at hc
  | cons x xs ih =>
    cases c with
    | nil =>
      simp only [List.cons_append, List.nil_append, List.cons.injEq] at h
      simp [h.1] at ha
    | cons y ys =>
      simp only [List.cons_append, List.cons.injEq] at h
      obtain ⟨rfl, h2⟩ := h
      have hr := ih (fun hm => ha (List.mem_cons_of_mem _ hm))
        (fun hm => hc (List.mem_cons_of_mem _ hm)) h2
      exact ⟨by rw [hr.1], hr.2⟩

/-- The character-level shape of a storage address. -/
theorem storage_address_data (o p f st a : String) :
    (storage_address o p f st a).data
      = o.data ++ '/' :: (p.data ++ '/' :: (f.data ++ '/' :: (st.data ++ '/' :: a.data))) := by
  simp [storage_address, String.data_append]

/-- The enriched-JSON path builder follows the shared address convention
with stage `enriched` and artifact `enriched.json`. -/
theorem generate_enriched_json_path_follows_convention (o p f : String) :
    generate_enriched_json_path o p f = storage_address o p f "enriched" "enriched.json" := by
  apply String.ext
  simp [generate_enriched_json_path, storage_address, String.data_append]

/-- The converted-artifact path built in `convert_file_task` follows the
shared address convention with stage `converted`. -/
theorem converted_blob_path_follows_convention (o p f pdf : String) :
    converted_blob_path o p f pdf = storage_address o p f "converted" pdf := by
  apply String.ext
  simp [converted_blob_path, storage_address, String.data_append]

/-- When no attempt ever succeeds, the analyzer's retry loop returns an
error from any starting point. -/
theorem analyzeFrom_error_of_no_success (retryDelay : Nat) (env : Nat → AfrAttempt)
    (h : ∀ k r, env k ≠ AfrAttempt.success r) :
    ∀ remaining attempt, ∃ e,
      (analyzeFrom retryDelay env remaining attempt).result = .error e := by
  intro remaining
  induction remaining with
  | zero => intro attempt; exact ⟨_, rfl⟩
  | succ n ih =>
    intro attempt
    cases henv : env attempt with
    | success r => exact absurd henv (h attempt r)
    | timeout =>
      by_cases hn : n > 0
      · obtain ⟨e, he⟩ := ih (attempt + 1)
        exact ⟨e, by simp [analyzeFrom, henv, hn, he]⟩
      · exact ⟨"AFR analysis timed out after all retries", by simp [analyzeFrom, henv, hn]⟩
    | httpError status msg =>
      by_cases hn : status = 429 ∧ n > 0
      · obtain ⟨e, he⟩ := ih (attempt + 1)
        exact ⟨e, by simp [analyzeFrom, henv, hn, he]⟩
      · exact ⟨"AFR HTTP error: " ++ msg, by simp [analyzeFrom, henv, hn]⟩
    | otherError msg =>
      by_cases hn : n > 0
      · obtain ⟨e, he⟩ := ih (attempt + 1)
        exact ⟨e, by simp [analyzeFrom, henv, hn, he]⟩
      · exact ⟨"AFR analysis failed: " ++ msg, by simp [analyzeFrom, henv, hn]⟩

/-! ## Claim theorems -/

/-- C1 counterexample: in the conversion skip path (`needs_conversion`
false), `convert_file_task` persists `conversion_complete` without ever
persisting `conversion_started`, so the run's status trace violates the
claimed started-before-complete property at its very first entry. -/
theorem conversion_skip_complete_without_started :
    startBeforeCompleteFrom []
      (pipelineTrace ⟨ConversionOutcome.skip, some .ok, some .ok, some .ok⟩) = false := by
  decide

/-- C1 (amended): in every pipeline run, each `parsing_complete`,
`chunking_complete` and `embedding_complete` status is preceded by the same
stage's `*_started` status; the same holds for `conversion_complete`
whenever conversion was actually performed.  Only the conversion skip path
records a completion without a started status. -/
theorem complete_requires_started_amended :
    ∀ r : PipelineRun,
      startBeforeCompleteNonConvFrom [] (pipelineTrace r) = true
      ∧ (r.conv ≠ ConversionOutcome.skip →
          startBeforeCompleteFrom [] (pipelineTrace r) = true) := by
  decide

/-- C1 witness: the amended theorem applied to a full successful run whose
conversion was actually performed. -/
theorem complete_requires_started_amended_witness :
    startBeforeCompleteNonConvFrom []
      (pipelineTrace ⟨ConversionOutcome.converted, some .ok, some .ok, some .ok⟩) = true
    ∧ startBeforeCompleteFrom []
      (pipelineTrace ⟨ConversionOutcome.converted, some .ok, some .ok, some .ok⟩) = true :=
  ⟨(complete_requires_started_amended ⟨.converted, some .ok, some .ok, some .ok⟩).1,
   (complete_requires_started_amended ⟨.converted, some .ok, some .ok, some .ok⟩).2
     (by decide)⟩

/-- C2 counterexample: requesting `chunking_complete` for a document whose
current status is `uploaded` is illegal under §4.1, yet
`FileRepository.update_status` records it and returns the updated row
rather than a failure signal. -/
theorem update_status_illegal_transition_counterexample :
    legalTransition sampleFile.status FileStatus.chunking_complete = false
    ∧ update_status (some sampleFile) FileStatus.chunking_complete none
        = some { sampleFile with status := FileStatus.chunking_complete } := by
  decide

/-- C2 (amended): `update_status` performs no transition validation: even
for a transition that is illegal under §4.1 it records the requested status
and reports success; its only failure signal (`none`) is a missing
document row. -/
theorem update_status_no_validation :
    ∀ (f : FileRecord) (st : FileStatus) (em : Option String),
      (legalTransition f.status st = false →
        update_status (some f) st em
          = some { f with
                    status := st
                    error_message := if pyTruthyStr em then em else f.error_message })
      ∧ update_status none st em = none := by
  intro f st em
  exact ⟨fun _ => rfl, rfl⟩

/-- C2 witness: the amended theorem applied to an `uploaded` row receiving
the illegal request `chunking_complete`. -/
theorem update_status_no_validation_witness :
    update_status (some sampleFile) FileStatus.chunking_complete none
      = some { sampleFile with
                status := FileStatus.chunking_complete
                error_message :=
                  if pyTruthyStr none then none else sampleFile.error_message } :=
  (update_status_no_validation sampleFile FileStatus.chunking_complete none).1 (by decide)

/-- C3 counterexample: running the chunking stage twice leaves six chunk
rows where one run leaves three — the second run appends a second copy of
the chunk set instead of replacing it, contradicting the claimed
idempotence. -/
theorem chunking_rerun_counterexample :
    (chunk_file_task "file1" 0 1 chunkSampleState).chunks.length = 3
    ∧ (chunk_file_task "file1" 2 3 (chunk_file_task "file1" 0 1 chunkSampleState)).chunks.length = 6
    ∧ (chunk_file_task "file1" 2 3 (chunk_file_task "file1" 0 1 chunkSampleState)).chunks
        ≠ (chunk_file_task "file1" 0 1 chunkSampleState).chunks := by
  decide

/-- C3 (amended): re-running the chunking stage generates the same three
deterministic chunk addresses and sets `total_chunks` to 3 again, but it
appends a second copy of the dummy chunk rows to the document's chunk set
instead of replacing the first copy. -/
theorem chunking_rerun_appends_same_addresses :
    ∀ (s : ChunkDbState) (fid : String) (t1 t2 t3 t4 : Nat),
      (chunk_file_task fid t3 t4 (chunk_file_task fid t1 t2 s)).chunks
        = s.chunks ++ mkDummyChunks fid s.file.blob_storage_path
            ++ mkDummyChunks fid s.file.blob_storage_path
      ∧ (chunk_file_task fid t1 t2 s).chunks
          = s.chunks ++ mkDummyChunks fid s.file.blob_storage_path
      ∧ (chunk_file_task fid t1 t2 s).file.total_chunks = 3
      ∧ (chunk_file_task fid t3 t4 (chunk_file_task fid t1 t2 s)).file.total_chunks = 3 := by
  intro s fid t1 t2 t3 t4
  exact ⟨rfl, rfl, rfl, rfl⟩

/-- C4 counterexample: for a document with zero normalized sections the
chunking stub still creates three dummy chunks and sets `total_chunks` to
3, not 0. -/
theorem chunking_zero_sections_counterexample :
    chunkSampleState.enrichedSections = []
    ∧ (chunk_file_task "file1" 0 1 chunkSampleState).file.total_chunks = 3
    ∧ (chunk_file_task "file1" 0 1 chunkSampleState).chunks.length = 3
    ∧ ¬((chunk_file_task "file1" 0 1 chunkSampleState).file.total_chunks = 0) := by
  decide

/-- C4 (amended): invoking the chunking stage for a document with zero
normalized sections succeeds (the run ends in `chunking_complete`, not an
error), but — since the stub never reads the sections — it produces exactly
three dummy chunks and sets `total_chunks` to 3 rather than 0. -/
theorem chunking_zero_sections_succeeds :
    ∀ (s : ChunkDbState) (fid : String) (t1 t2 : Nat),
      s.enrichedSections = [] →
        (chunk_file_task fid t1 t2 s).file.status = FileStatus.chunking_complete
        ∧ (chunk_file_task fid t1 t2 s).file.total_chunks = 3
        ∧ (chunk_file_task fid t1 t2 s).chunks.length = s.chunks.length + 3 := by
  intro s fid t1 t2 _
  refine ⟨rfl, rfl, ?_⟩
  simp [chunk_file_task, mkDummyChunks]

/-- C4 witness: the amended theorem applied to the zero-section sample
state. -/
theorem chunking_zero_sections_succeeds_witness :
    (chunk_file_task "file1" 0 1 chunkSampleState).file.status = FileStatus.chunking_complete
    ∧ (chunk_file_task "file1" 0 1 chunkSampleState).file.total_chunks = 3
    ∧ (chunk_file_task "file1" 0 1 chunkSampleState).chunks.length
        = chunkSampleState.chunks.length + 3 :=
  chunking_zero_sections_succeeds chunkSampleState "file1" 0 1 (by decide)

/-- C5: `needs_conversion` is a pure total function of the lowercased
filename suffix: it returns `false` for every filename ending in a
canonical extension (layout/JSON, modern spreadsheet/slide, audio, email
container), `true` for every filename ending in a legacy office or raster
image extension, and `true` for every other filename. -/
theorem needs_conversion_spec :
    ∀ fn : String,
      (endsWithAny (pyLower fn) canonicalExtensions = true → needs_conversion fn = false)
      ∧ (endsWithAny (pyLower fn) convertExtensions = true → needs_conversion fn = true)
      ∧ (endsWithAny (pyLower fn) canonicalExtensions = false → needs_conversion fn = true) := by
  intro fn
  refine ⟨fun h => ?_, fun h => ?_, fun h => ?_⟩
  · rw [needs_conversion_eq_not_canonical, h]; rfl
  · rw [needs_conversion_eq_not_canonical, convert_not_canonical (pyLower fn) h]; rfl
  · rw [needs_conversion_eq_not_canonical, h]; rfl

/-- C5 witness: the three cases of the claim evaluated on concrete
filenames (a canonical PDF, a legacy Word document, an unknown extension). -/
theorem needs_conversion_spec_witness :
    needs_conversion "Report.PDF" = false
    ∧ needs_conversion "memo.docx" = true
    ∧ needs_conversion "data.xyz" = true :=
  ⟨(needs_conversion_spec "Report.PDF").1 (by decide),
   (needs_conversion_spec "memo.docx").2.1 (by decide),
   (needs_conversion_spec "data.xyz").2.2 (by decide)⟩

/-- C6 counterexample: a non-rate-limit HTTP response error (status 500) on
attempt 0 is not retried at all — `analyze_document` raises immediately
with no delay, even though attempt 1 would have succeeded and two further
attempts were configured.  The claim predicts a retry after a fixed
constant delay for this "any other failure" kind. -/
theorem analyze_document_http_error_no_retry :
    analyze_document 3 2 afrHttp500Env
      = ⟨Except.error "AFR HTTP error: boom", []⟩
    ∧ afrHttp500Env 1 = AfrAttempt.success 7 := by
  decide

/-- C6 (amended): the analyzer retries with a delay chosen by failure kind
— linear `delay * (attempt + 1)` after a timeout, exponential
`delay * 2 ^ attempt` after an HTTP 429, and a fixed `delay` after any
non-HTTP exception — and raises a terminal error on the final attempt of
each retried kind and when every attempt fails; however a non-429 HTTP
response error is never retried: it raises immediately regardless of the
attempts remaining. -/
theorem analyze_document_retry_amended :
    ∀ (retryDelay : Nat) (env : Nat → AfrAttempt) (r attempt status : Nat) (msg : String),
      (env attempt = AfrAttempt.timeout →
        analyzeFrom retryDelay env (r + 2) attempt
          = ⟨(analyzeFrom retryDelay env (r + 1) (attempt + 1)).result,
             retryDelay * (attempt + 1)
               :: (analyzeFrom retryDelay env (r + 1) (attempt + 1)).delays⟩
        ∧ analyzeFrom retryDelay env 1 attempt
            = ⟨Except.error "AFR analysis timed out after all retries", []⟩)
      ∧ (env attempt = AfrAttempt.httpError 429 msg →
          analyzeFrom retryDelay env (r + 2) attempt
            = ⟨(analyzeFrom retryDelay env (r + 1) (attempt + 1)).result,
               retryDelay * 2 ^ attempt
                 :: (analyzeFrom retryDelay env (r + 1) (attempt + 1)).delays⟩)
      ∧ (env attempt = AfrAttempt.httpError status msg → status ≠ 429 →
          analyzeFrom retryDelay env (r + 1) attempt
            = ⟨Except.error ("AFR HTTP error: " ++ msg), []⟩)
      ∧ (env attempt = AfrAttempt.otherError msg →
          analyzeFrom retryDelay env (r + 2) attempt
            = ⟨(analyzeFrom retryDelay env (r + 1) (attempt + 1)).result,
               retryDelay :: (analyzeFrom retryDelay env (r + 1) (attempt + 1)).delays⟩
          ∧ analyzeFrom retryDelay env 1 attempt
              = ⟨Except.error ("AFR analysis failed: " ++ msg), []⟩)
      ∧ ((∀ k res, env k ≠ AfrAttempt.success res) →
          ∃ e, (analyze_document (r + 1) retryDelay env).result = Except.error e) := by
  intro retryDelay env r attempt status msg
  refine ⟨fun h => ⟨?_, ?_⟩, fun h => ?_, fun h hs => ?_, fun h => ⟨?_, ?_⟩, fun h => ?_⟩
  · simp [analyzeFrom, h]
  · simp [analyzeFrom, h]
  · simp [analyzeFrom, h]
  · have : ¬(status = 429 ∧ r > 0) := fun hc => hs hc.1
    simp [analyzeFrom, h, this]
  · simp [analyzeFrom, h]
  · simp [analyzeFrom, h]
  · exact analyzeFrom_error_of_no_success retryDelay env h (r + 1) 0

/-- C6 witness: the amended theorem applied to an environment that times
out on attempt 0 (retried with the linear delay 2 · 1) and to an
environment in which every attempt fails (terminal error). -/
theorem analyze_document_retry_amended_witness :
    (analyzeFrom 2 afrTimeoutTwiceEnv 3 0
      = ⟨(analyzeFrom 2 afrTimeoutTwiceEnv 2 1).result,
         2 * (0 + 1) :: (analyzeFrom 2 afrTimeoutTwiceEnv 2 1).delays⟩)
    ∧ ∃ e, (analyze_document 2 2 afrAlwaysFailEnv).result = Except.error e :=
  ⟨((analyze_document_retry_amended 2 afrTimeoutTwiceEnv 1 0 500 "x").1 (by decide)).1,
   (analyze_document_retry_amended 2 afrAlwaysFailEnv 1 0 500 "x").2.2.2.2
     (by intro k res; simp [afrAlwaysFailEnv])⟩

/-- C7: the enrichment step never propagates an error into the parsing
stage: whenever the feature flag is off, or the enrichment client fails to
initialize, or the LLM call raises (modelled as the call returning an
error), `_enrich_with_llm` returns the empty metadata object and the
assembled envelope carries an empty `enriched_metadata`. -/
theorem enrichment_never_fails :
    ∀ (enabled : Bool) (llmCall : Except String Metadata) (sections : List Section)
      (pageInfo : Option (List (String × PageInfo))) (baseMeta : List (String × String)),
      (enabled = false ∨ ∃ e, llmCall = Except.error e) →
        enrich_with_llm enabled llmCall = []
        ∧ (create_enriched_json_structure sections pageInfo
             (some (enrich_with_llm enabled llmCall)) baseMeta).enriched_metadata = [] := by
  intro enabled llmCall sections pageInfo baseMeta h
  have h1 : enrich_with_llm enabled llmCall = [] := by
    rcases h with h | ⟨e, rfl⟩
    · simp [enrich_with_llm, h]
    · cases enabled <;> simp [enrich_with_llm]
  exact ⟨h1, by simp [create_enriched_json_structure, pyOrEmpty, h1]⟩

/-- C7 witness: the theorem applied to an enabled enrichment whose LLM call
raises. -/
theorem enrichment_never_fails_witness :
    enrich_with_llm true (Except.error "LLM enrichment failed") = []
    ∧ (create_enriched_json_structure [] none
         (some (enrich_with_llm true (Except.error "LLM enrichment failed")))
         []).enriched_metadata = [] :=
  enrichment_never_fails true (Except.error "LLM enrichment failed") [] none []
    (Or.inr ⟨"LLM enrichment failed", rfl⟩)

/-- C8: for every raw analysis result (and either table setting), the
section list produced by `extract_sections_from_result` is non-decreasingly
ordered by `(page_number, offset)`: every pair of consecutive sections is
related by the lexicographic order `sectionKeyLe`. -/
theorem extract_sections_sorted_by_page_offset :
    ∀ (result : RawResult) (includeTables : Bool),
      List.Chain' sectionKeyLe (extract_sections_from_result result includeTables).1 := by
  intro result includeTables
  exact List.Pairwise.chain'
    (List.sorted_insertionSort sectionKeyLe
      (result.paragraphs.map create_section_from_paragraph
        ++ (if includeTables then result.tables.map create_section_from_table else [])))

/-- C9 counterexample: the storage address function is not injective on
arbitrary string components — two tuples that differ in the organization
and project components collide when a component contains the `/`
separator. -/
theorem storage_address_not_injective_counterexample :
    generate_enriched_json_path "a/b" "c" "f"
      = generate_enriched_json_path "a" "b/c" "f"
    ∧ ("a/b", "c") ≠ ("a", "b/c") := by
  decide

/-- C9 (amended): the storage address function is deterministic (equal
component tuples give equal addresses — the right-to-left direction) and,
for components free of the `/` separator (as the system's UUID identifiers
and fixed stage names are), injective: two addresses are equal exactly when
all five components agree. -/
theorem storage_address_deterministic_injective :
    ∀ o1 p1 f1 st1 a1 o2 p2 f2 st2 a2 : String,
      slashFree o1 = true → slashFree p1 = true → slashFree f1 = true →
      slashFree st1 = true →
      slashFree o2 = true → slashFree p2 = true → slashFree f2 = true →
      slashFree st2 = true →
      (storage_address o1 p1 f1 st1 a1 = storage_address o2 p2 f2 st2 a2
        ↔ (o1 = o2 ∧ p1 = p2 ∧ f1 = f2 ∧ st1 = st2 ∧ a1 = a2)) := by
  intro o1 p1 f1 st1 a1 o2 p2 f2 st2 a2 ho1 hp1 hf1 hs1 ho2 hp2 hf2 hs2
  simp only [slashFree, decide_eq_true_iff] at ho1 hp1 hf1 hs1 ho2 hp2 hf2 hs2
  constructor
  · intro h
    have hd := congrArg String.data h
    rw [storage_address_data, storage_address_data] at hd
    obtain ⟨e1, hd⟩ := append_cons_inj ho1 ho2 hd
    obtain ⟨e2, hd⟩ := append_cons_inj hp1 hp2 hd
    obtain ⟨e3, hd⟩ := append_cons_inj hf1 hf2 hd
    obtain ⟨e4, hd⟩ := append_cons_inj hs1 hs2 hd
    exact ⟨String.ext e1, String.ext e2, String.ext e3, String.ext e4, String.ext hd⟩
  · rintro ⟨rfl, rfl, rfl, rfl, rfl⟩
    rfl

/-- C9 witness: the amended theorem applied to two slash-free tuples that
differ in the file component, whose addresses therefore differ. -/
theorem storage_address_deterministic_injective_witness :
    storage_address "org1" "proj1" "file1" "enriched" "enriched.json"
        = storage_address "org1" "proj1" "file2" "enriched" "enriched.json"
      ↔ ("org1" = "org1" ∧ "proj1" = "proj1" ∧ "file1" = "file2"
          ∧ "enriched" = "enriched" ∧ "enriched.json" = "enriched.json") :=
  storage_address_deterministic_injective
    "org1" "proj1" "file1" "enriched" "enriched.json"
    "org1" "proj1" "file2" "enriched" "enriched.json"
    (by decide) (by decide) (by decide) (by decide)
    (by decide) (by decide) (by decide) (by decide)

/-- C10: a status update with no accompanying error message (every success
transition) leaves the persisted `error_message` unchanged, and an error
message recorded by an earlier failed attempt survives a later successful
status update. -/
theorem update_status_preserves_error_message :
    ∀ (f : FileRecord) (st : FileStatus) (msg : String), msg ≠ "" →
      update_status (some f) st none = some { f with status := st }
      ∧ (update_status
            (update_status (some f) FileStatus.conversion_failed (some msg)) st none).map
          FileRecord.error_message = some (some msg) := by
  intro f st msg h
  refine ⟨rfl, ?_⟩
  simp [update_status, pyTruthyStr, h]

/-- C10 witness: the theorem applied to the sample row with a concrete
failure message and a later `ready` update. -/
theorem update_status_preserves_error_message_witness :
    update_status (some sampleFile) FileStatus.ready none
      = some { sampleFile with status := FileStatus.ready }
    ∧ (update_status
          (update_status (some sampleFile) FileStatus.conversion_failed
            (some "conversion timed out")) FileStatus.ready none).map
        FileRecord.error_message = some (some "conversion timed out") :=
  update_status_preserves_error_message sampleFile FileStatus.ready
    "conversion timed out" (by decide)

end Memic
